import Mathlib

/-!
Shallow embedding of the session/transaction engine of the neo4j-go-driver
(`neo4j/session_with_context.go`).  External collaborators (connection pool,
router, bookmark manager, wire connection) are represented by scripted
environments: each operation takes a record holding the outcome every
collaborator call would produce, and returns the updated session, the ordered
trace of observable collaborator events, and the operation's result.
Components of this repository that live outside the embedded file (the retry
state, the session bookmark tracker, the transaction wrappers, error
combination) are modelled from the specification; each such definition is
marked in its doc comment.
-/

namespace Neo4j

/-- Access mode of a unit of work (`idb.AccessMode`). -/
inductive AccessMode where
  | read
  | write
deriving DecidableEq, Repr, BEq

/-- Errors produced by collaborators or by the session itself
(`UsageError`, `ConnectivityError`, server errors with code-based
retryability). -/
inductive BaseError where
  | usageError (msg : String)
  | connectivityError (msg : String)
  | serverError (code : String) (retryable : Bool)
deriving DecidableEq, Repr, BEq

/-- Errors surfaced to the caller: a collaborator/session error as-is, or the
synthetic retry-limit error produced by `runRetriable`
(`newTransactionExecutionLimit`) carrying the ordered failure history. -/
inductive DriverError where
  | base (e : BaseError)
  | transactionExecutionLimit (errs : List BaseError) (causes : List String)
deriving DecidableEq, Repr, BEq

/-- Modelled from the spec: retryability classification (the classification
collaborator is not under src/): connectivity/transport errors are retryable,
usage/client errors never are, server errors delegate to code-based
classification. -/
def isRetryable : BaseError → Bool
  | .connectivityError _ => true
  | .serverError _ r => r
  | .usageError _ => false

def DriverError.isUsage : DriverError → Bool
  | .base (.usageError _) => true
  | _ => false

def DriverError.isConnectivity : DriverError → Bool
  | .base (.connectivityError _) => true
  | _ => false

def DriverError.isLimit : DriverError → Bool
  | .transactionExecutionLimit _ _ => true
  | _ => false

/-- Modelled from the spec: `wrapError` (errorutil, not under src/) surfaces a
driver error as-is to the caller. -/
def wrapError (e : BaseError) : DriverError := .base e

/-- Modelled from the spec: `wrapError` applied to a possibly-absent error. -/
def wrapErrorOpt : Option BaseError → Option DriverError
  | none => none
  | some e => some (.base e)

/-- Observable collaborator events, in the order the session issues them. -/
inductive Event where
  | borrow
  | returnConn
  | selectDatabase (db : String)
  | routingLookup
  | txBegin
  | workRun
  | txCommit
  | txRollback
  | txClose
  | runQuery
  | notifyAuthority (db : String) (sent : List String) (new : String)
  | invalidateReader (db server : String)
  | invalidateWriter (db server : String)
  | poolCleanUp
  | routerCleanUp
  | logError (e : DriverError)
  | logWarn
deriving DecidableEq, Repr, BEq

/-- A borrowed connection as seen by the session (`idb.Connection`): its
server, whether it implements `idb.DatabaseSelector`, and the
`(bookmark, database)` pair `conn.Bookmark()` reports after use. -/
structure ConnInfo where
  serverName : String
  supportsDbSelection : Bool
  bookmark : String
  bookmarkDb : String
deriving DecidableEq, Repr, BEq

/-- Modelled from the spec: the session bookmark tracker
(`sessionBookmarks`, not under src/): a mutable current bookmark set and an
optional externally-owned bookmark authority. -/
structure SessionBookmarksT where
  hasManager : Bool
  currentBookmarks : List String
deriving DecidableEq, Repr, BEq

/-- Modelled from the spec: `replaceSessionBookmarks` — if the server returned
a token, atomically replace the session's current bookmark set with the
singleton of that token; the external authority is not consulted. -/
def replaceSessionBookmarks (b : SessionBookmarksT) (new : String) : SessionBookmarksT :=
  if new = "" then b else { b with currentBookmarks := [new] }

/-- Modelled from the spec: `replaceBookmarks database sent new` — no-op if
the server returned nothing; otherwise notify the external authority (when
configured) of the transition from `sent` to `new` for that database, then
replace the session's current set with the new token.  A notification failure
is returned and the local set is left unchanged. -/
def replaceBookmarks (b : SessionBookmarksT) (db : String) (sent : List String)
    (new : String) (notifyResult : Option BaseError) :
    SessionBookmarksT × List Event × Option BaseError :=
  if new = "" then (b, [], none)
  else if b.hasManager then
    match notifyResult with
    | some e => (b, [.notifyAuthority db sent new], some e)
    | none => ({ b with currentBookmarks := [new] }, [.notifyAuthority db sent new], none)
  else ({ b with currentBookmarks := [new] }, [], none)

/-- `TransactionConfig`: the timeout (Go `time.Duration`, an `int64`) and
opaque metadata. -/
structure TransactionConfig where
  timeout : Int
  hasMetadata : Bool
deriving DecidableEq, Repr, BEq

/-- Go's `math.MinInt` on a 64-bit platform, the unset-timeout sentinel. -/
def mathMinInt : Int := -(2 ^ 63)

/-- `defaultTransactionConfig`: timeout sentinel `math.MinInt`, nil metadata. -/
def defaultTransactionConfig : TransactionConfig :=
  { timeout := mathMinInt, hasMetadata := false }

/-- The configurer functions applied in order to the default config. -/
def applyConfigurers (cfgs : List (TransactionConfig → TransactionConfig)) :
    TransactionConfig :=
  cfgs.foldl (fun c f => f c) defaultTransactionConfig

/-- `validateTransactionConfig`: rejects a negative timeout other than the
`math.MinInt` sentinel with a usage error naming the given timeout. -/
def validateTransactionConfig (config : TransactionConfig) : Option BaseError :=
  if config.timeout ≠ mathMinInt ∧ config.timeout < 0 then
    some (.usageError
      ("Negative transaction timeouts are not allowed. Given: " ++ toString config.timeout))
  else none

/-- A transaction wrapper (explicit or autocommit): the borrowed connection,
the opaque server-side transaction handle, and the bookmarks that were sent
when it was opened (captured for the completion callback). -/
structure TxWrapper where
  conn : ConnInfo
  txHandle : Nat
  sentBookmarks : List String
deriving DecidableEq, Repr, BEq

/-- `idb.DefaultDatabase`: the empty name selects the server-side default. -/
def DefaultDatabase : String := ""

/-- The session state (`sessionWithContext`): the fields the embedded
operations read or write. -/
structure Session where
  defaultMode : AccessMode
  bookmarks : SessionBookmarksT
  databaseName : String
  impersonatedUser : String
  resolveHomeDb : Bool
  explicitTx : Option TxWrapper
  autocommitTx : Option TxWrapper
  maxRetryTime : Nat
deriving DecidableEq, Repr, BEq

/-- `newSessionWithContext`: a fresh session resolves its home database lazily
exactly when no database name was configured. -/
def newSessionWithContext (dbName : String) (mode : AccessMode)
    (hasManager : Bool) (initialBookmarks : List String) (maxRetryTime : Nat) : Session :=
  { defaultMode := mode
    bookmarks := { hasManager := hasManager, currentBookmarks := initialBookmarks }
    databaseName := dbName
    impersonatedUser := ""
    resolveHomeDb := dbName = ""
    explicitTx := none
    autocommitTx := none
    maxRetryTime := maxRetryTime }

/-- Scripted outcomes of the collaborator calls `getConnection` makes:
the bookmark-manager part of `routingBookmarks`, the router's
`GetNameOfDefaultDatabase`, the router's `Readers`/`Writers`, and the pool's
`Borrow`. -/
structure GetConnEnv where
  routingBmResult : Except BaseError (List String)
  resolveDbResult : Except BaseError String
  serversResult : Except BaseError (List String)
  borrowResult : Except BaseError ConnInfo
deriving Repr

/-- `resolveHomeDatabase`: a no-op once the session's database is pinned;
otherwise gathers routing bookmarks, queries the router once for the default
database name, and on success pins the resolved name for the rest of the
session's lifetime. -/
def resolveHomeDatabase (s : Session) (env : GetConnEnv) :
    Session × List Event × Option BaseError :=
  if s.resolveHomeDb = false then (s, [], none)
  else
    match env.routingBmResult with
    | .error e => (s, [], some e)
    | .ok _ =>
      match env.resolveDbResult with
      | .error e => (s, [.routingLookup], some e)
      | .ok db => ({ s with databaseName := db, resolveHomeDb := false }, [.routingLookup], none)

/-- `getConnection`: resolve the home database, query routing for candidate
servers for the mode, borrow a pooled connection, and when a non-default
database is selected require the database-selection capability, returning the
connection to the pool and failing with a usage error when it is missing. -/
def getConnection (s : Session) (_mode : AccessMode) (env : GetConnEnv) :
    Session × List Event × Except BaseError ConnInfo :=
  match resolveHomeDatabase s env with
  | (s₁, evs, some e) => (s₁, evs, .error e)
  | (s₁, evs, none) =>
    match env.serversResult with
    | .error e => (s₁, evs, .error e)
    | .ok _ =>
      match env.borrowResult with
      | .error e => (s₁, evs ++ [.borrow], .error e)
      | .ok conn =>
        if s₁.databaseName ≠ DefaultDatabase then
          if conn.supportsDbSelection then
            (s₁, evs ++ [.borrow, .selectDatabase s₁.databaseName], .ok conn)
          else
            (s₁, evs ++ [.borrow, .returnConn],
              .error (.usageError "Database does not support multi-database"))
        else (s₁, evs ++ [.borrow], .ok conn)
  -- `_mode` only selects Readers vs Writers; both are scripted by `serversResult`.

/-- `transactionBookmarks`: the union of the bookmark manager's set for the
active database (scripted) and the session-local current set. -/
def transactionBookmarks (s : Session) (mgrBookmarks : Except BaseError (List String)) :
    Except BaseError (List String) :=
  match mgrBookmarks with
  | .error e => .error e
  | .ok mgr => .ok ((mgr ++ s.bookmarks.currentBookmarks).eraseDups)

/-- `retrieveBookmarks`: read `(bookmark, database)` off the connection and
feed them to the tracker's `replaceBookmarks`, preferring the
connection-reported database when present. -/
def retrieveBookmarks (s : Session) (conn : ConnInfo) (sent : List String)
    (notifyResult : Option BaseError) : Session × List Event × Option BaseError :=
  let db := if conn.bookmarkDb ≠ "" then conn.bookmarkDb else s.databaseName
  let r := replaceBookmarks s.bookmarks db sent conn.bookmark notifyResult
  ({ s with bookmarks := r.1 }, r.2.1, r.2.2)

/-- `retrieveSessionBookmarks`: drain the connection-level bookmark into the
session-local set without consulting the external authority. -/
def retrieveSessionBookmarks (s : Session) (conn : ConnInfo) : Session :=
  { s with bookmarks := replaceSessionBookmarks s.bookmarks conn.bookmark }

/-- `LastBookmarks`: when an autocommit transaction is pending, first drain
its connection's bookmark into the tracker (no authority notification), then
report the tracker's current bookmark set. -/
def LastBookmarks (s : Session) : Session × List Event × List String :=
  match s.autocommitTx with
  | some tx =>
    let s₁ := retrieveSessionBookmarks s tx.conn
    (s₁, [], s₁.bookmarks.currentBookmarks)
  | none => (s, [], s.bookmarks.currentBookmarks)

/-- Modelled from the spec: the retry engine's run state (`retry.State`, not
under src/): retry budget, start time, current clock reading, last error and
its retryability flag, and the ordered history of failures. -/
structure RetryState where
  maxRetryTime : Nat
  start : Nat
  now : Nat
  mode : AccessMode
  databaseName : String
  lastErr : Option BaseError
  lastErrWasRetryable : Bool
  errs : List BaseError
  causes : List String
deriving DecidableEq, Repr, BEq

/-- Modelled from the spec: `retry.State.Continue` — loop while no failure has
been seen yet, or while the last failure was retryable and the elapsed time is
still under the budget (the engine stops exactly once elapsed time reaches the
budget). -/
def RetryState.Continue (st : RetryState) : Bool :=
  st.lastErr.isNone || (st.lastErrWasRetryable && st.now - st.start < st.maxRetryTime)

/-- Modelled from the spec: `retry.State.OnFailure` — record the failure in
the ordered history, classify it (a failure while committing is always
retryable-but-ambiguous; otherwise by error kind), and invalidate the failed
server from the routing table for the access mode when the error is a
connectivity error against a specific server. -/
def RetryState.OnFailure (st : RetryState) (conn : Option ConnInfo) (err : BaseError)
    (wasCommitting : Bool) : RetryState × List Event :=
  let retryable := wasCommitting || isRetryable err
  let evs : List Event :=
    match conn with
    | none => []
    | some c =>
      match err with
      | .usageError _ => []
      | .serverError _ _ => []
      | .connectivityError _ =>
        if st.mode = .write then [.invalidateWriter st.databaseName c.serverName]
        else [.invalidateReader st.databaseName c.serverName]
  ({ st with lastErr := some err, lastErrWasRetryable := retryable,
             errs := st.errs ++ [err] }, evs)

/-- Scripted outcomes of one attempt of the retry loop: the wall-clock time
the attempt consumes, the connection-acquisition script, the bookmark
manager's contribution to `transactionBookmarks`, `conn.TxBegin`, the work
closure, `conn.TxCommit` (`none` = success), and the bookmark authority's
notification outcome inside `retrieveBookmarks`. -/
structure AttemptEnv where
  duration : Nat
  connEnv : GetConnEnv
  mgrBookmarks : Except BaseError (List String)
  txBeginResult : Except BaseError Nat
  workResult : Except BaseError Nat
  commitResult : Option BaseError
  notifyResult : Option BaseError
deriving Repr

/-- `executeTransactionFunction`: one attempt of the retry loop.  Acquire a
connection, compute the bookmarks to send, begin a server-side transaction,
run the work closure, commit, and merge the returned bookmark; every failure
is recorded on the retry state (commit failures with the ambiguous flag set)
and yields `tryAgain = true`; the borrowed connection is returned to the pool
on every exit path that borrowed one; a work-closure failure triggers no
explicit rollback; a bookmark-merge failure after a successful commit is only
logged. -/
def executeTransactionFunction (s : Session) (mode : AccessMode)
    (st : RetryState) (env : AttemptEnv) :
    Session × RetryState × List Event × Bool × Option Nat :=
  let st := { st with now := st.now + env.duration }
  match getConnection s mode env.connEnv with
  | (s₁, evs, .error e) =>
    let r := st.OnFailure none e false
    (s₁, r.1, evs ++ r.2, true, none)
  | (s₁, evs, .ok conn) =>
    match transactionBookmarks s₁ env.mgrBookmarks with
    | .error e =>
      let r := st.OnFailure (some conn) e false
      (s₁, r.1, evs ++ r.2 ++ [.returnConn], true, none)
    | .ok beginBookmarks =>
      match env.txBeginResult with
      | .error e =>
        let r := st.OnFailure (some conn) e false
        (s₁, r.1, evs ++ [.txBegin] ++ r.2 ++ [.returnConn], true, none)
      | .ok _txHandle =>
        match env.workResult with
        | .error e =>
          -- the work closure failed: no explicit rollback is issued; the
          -- pool's reset-on-return performs the implicit rollback
          let r := st.OnFailure (some conn) e false
          (s₁, r.1, evs ++ [.txBegin, .workRun] ++ r.2 ++ [.returnConn], true, none)
        | .ok x =>
          match env.commitResult with
          | some e =>
            let r := st.OnFailure (some conn) e true
            (s₁, r.1, evs ++ [.txBegin, .workRun] ++ r.2 ++ [.returnConn], true, none)
          | none =>
            let rb := retrieveBookmarks s₁ conn beginBookmarks env.notifyResult
            let warn : List Event := match rb.2.2 with
              | some _ => [.logWarn]
              | none => []
            (rb.1, st, evs ++ [.txBegin, .workRun, .txCommit] ++ rb.2.1 ++ warn
              ++ [.returnConn], false, some x)

/-- The `for state.Continue()` loop of `runRetriable`, driven by the scripted
attempts; the loop stops early on success or when `Continue` turns false. -/
def retryLoop (mode : AccessMode) :
    Session → RetryState → List AttemptEnv →
    Session × RetryState × List Event × Option Nat
  | s, st, [] => (s, st, [], none)
  | s, st, env :: rest =>
    if st.Continue then
      match executeTransactionFunction s mode st env with
      | (s₁, st₁, evs, true, _) =>
        let r := retryLoop mode s₁ st₁ rest
        (r.1, r.2.1, evs ++ r.2.2.1, r.2.2.2)
      | (s₁, st₁, evs, false, v) => (s₁, st₁, evs, v)
    else (s, st, [], none)

/-- The result of `runRetriable`: final session, final retry state, event
trace, work result and surfaced error (Go's `(any, error)` pair). -/
structure RetriableResult where
  session : Session
  state : RetryState
  events : List Event
  value : Option Nat
  error : Option DriverError
deriving Repr

/-- Scripted environment of one `runRetriable` call: the notification-filter
validation outcome, the clock value at entry, and the per-attempt scripts. -/
structure RetryEnv where
  filtersResult : Option BaseError
  startTime : Nat
  script : List AttemptEnv
deriving Repr

/-- Modelled from the spec: finalizing a pending autocommit transaction
(`autocommitTx.done`, wrapper code not under src/): the transaction is set
aside — its completion callback returns the connection to the pool and clears
the session's reference — with no error surfaced. -/
def autocommitDone (s : Session) : Session × List Event :=
  match s.autocommitTx with
  | some _ => ({ s with autocommitTx := none }, [.returnConn])
  | none => (s, [])

/-- The initial retry state `runRetriable` builds. -/
def initialRetryState (s : Session) (mode : AccessMode) (startTime : Nat) : RetryState :=
  { maxRetryTime := s.maxRetryTime, start := startTime, now := startTime,
    mode := mode, databaseName := s.databaseName,
    lastErr := none, lastErrWasRetryable := false, errs := [], causes := [] }

/-- `runRetriable` (the engine behind `ExecuteRead`/`ExecuteWrite`): guard
against a pending explicit transaction, finalize a pending autocommit
transaction, validate filters and configuration, then drive the retry loop;
afterwards produce the synthetic retry-limit error carrying the failure
history when the last failure was retryable, otherwise surface the last error
as-is after wrapping, logging only usage/connectivity/retry-limit errors. -/
def runRetriable (s : Session) (mode : AccessMode)
    (cfgs : List (TransactionConfig → TransactionConfig)) (renv : RetryEnv) :
    RetriableResult :=
  if s.explicitTx.isSome then
    { session := s, state := initialRetryState s mode renv.startTime, events := [],
      value := none,
      error := some (.base (.usageError "Session already has a pending transaction")) }
  else
    let d := autocommitDone s
    let s₁ := d.1
    let evs₀ := d.2
    match renv.filtersResult with
    | some e =>
      { session := s₁, state := initialRetryState s₁ mode renv.startTime,
        events := evs₀, value := none, error := some (.base e) }
    | none =>
      match validateTransactionConfig (applyConfigurers cfgs) with
      | some e =>
        { session := s₁, state := initialRetryState s₁ mode renv.startTime,
          events := evs₀, value := none, error := some (.base e) }
      | none =>
        let r := retryLoop mode s₁ (initialRetryState s₁ mode renv.startTime) renv.script
        match r.2.2.2 with
        | some x =>
          { session := r.1, state := r.2.1, events := evs₀ ++ r.2.2.1,
            value := some x, error := none }
        | none =>
          if r.2.1.lastErrWasRetryable then
            let e := DriverError.transactionExecutionLimit r.2.1.errs r.2.1.causes
            { session := r.1, state := r.2.1,
              events := evs₀ ++ r.2.2.1 ++ [.logError e], value := none,
              error := some e }
          else
            match r.2.1.lastErr with
            | some le =>
              let e := wrapError le
              let logEvs : List Event :=
                if e.isUsage || e.isConnectivity then [.logError e] else []
              { session := r.1, state := r.2.1, events := evs₀ ++ r.2.2.1 ++ logEvs,
                value := none, error := some e }
            | none =>
              { session := r.1, state := r.2.1, events := evs₀ ++ r.2.2.1,
                value := none, error := none }

/-- `ExecuteRead`: retriable work in read mode. -/
def ExecuteRead (s : Session) (cfgs : List (TransactionConfig → TransactionConfig))
    (renv : RetryEnv) : RetriableResult :=
  runRetriable s .read cfgs renv

/-- `ExecuteWrite`: retriable work in write mode. -/
def ExecuteWrite (s : Session) (cfgs : List (TransactionConfig → TransactionConfig))
    (renv : RetryEnv) : RetriableResult :=
  runRetriable s .write cfgs renv

/-- Result of a one-shot session operation: updated session, event trace, and
value or surfaced error. -/
structure OpResult (α : Type) where
  session : Session
  events : List Event
  result : Except DriverError α

/-- Scripted outcomes of the collaborator calls `BeginTransaction` makes. -/
structure BeginEnv where
  filtersResult : Option BaseError
  connEnv : GetConnEnv
  mgrBookmarks : Except BaseError (List String)
  txBeginResult : Except BaseError Nat
deriving Repr

/-- `BeginTransaction`: fail with a usage error while an explicit transaction
is open; otherwise finalize a pending autocommit transaction, validate
filters and configuration, acquire a connection, compute bookmarks, begin a
server-side transaction (returning the connection on failure), and install
the explicit transaction wrapper. -/
def BeginTransaction (s : Session) (cfgs : List (TransactionConfig → TransactionConfig))
    (env : BeginEnv) : OpResult TxWrapper :=
  if s.explicitTx.isSome then
    let e : DriverError := .base (.usageError "Session already has a pending transaction")
    { session := s, events := [.logError e], result := .error e }
  else
    let d := autocommitDone s
    let s₁ := d.1
    let evs₀ := d.2
    match env.filtersResult with
    | some e => { session := s₁, events := evs₀, result := .error (.base e) }
    | none =>
      match validateTransactionConfig (applyConfigurers cfgs) with
      | some e => { session := s₁, events := evs₀, result := .error (.base e) }
      | none =>
        match getConnection s₁ s₁.defaultMode env.connEnv with
        | (s₂, evs₁, .error e) =>
          { session := s₂, events := evs₀ ++ evs₁, result := .error (wrapError e) }
        | (s₂, evs₁, .ok conn) =>
          match transactionBookmarks s₂ env.mgrBookmarks with
          | .error e =>
            { session := s₂, events := evs₀ ++ evs₁ ++ [.returnConn],
              result := .error (wrapError e) }
          | .ok beginBookmarks =>
            match env.txBeginResult with
            | .error e =>
              { session := s₂, events := evs₀ ++ evs₁ ++ [.txBegin, .returnConn],
                result := .error (wrapError e) }
            | .ok h =>
              let tx : TxWrapper :=
                { conn := conn, txHandle := h, sentBookmarks := beginBookmarks }
              { session := { s₂ with explicitTx := some tx },
                events := evs₀ ++ evs₁ ++ [.txBegin], result := .ok tx }

/-- Scripted outcomes of the collaborator calls `Run` makes. -/
structure RunEnv where
  filtersResult : Option BaseError
  connEnv : GetConnEnv
  mgrBookmarks : Except BaseError (List String)
  runResult : Except BaseError Nat
deriving Repr

/-- `Run`: fail with a usage error while an explicit transaction is open;
otherwise finalize a pending autocommit transaction, validate filters and
configuration, acquire a connection, compute bookmarks, issue the autocommit
query (returning the connection on failure), and install the autocommit
transaction wrapper. -/
def Run (s : Session) (cfgs : List (TransactionConfig → TransactionConfig))
    (env : RunEnv) : OpResult TxWrapper :=
  if s.explicitTx.isSome then
    let e : DriverError :=
      .base (.usageError "Trying to run auto-commit transaction while in explicit transaction")
    { session := s, events := [.logError e], result := .error e }
  else
    let d := autocommitDone s
    let s₁ := d.1
    let evs₀ := d.2
    match env.filtersResult with
    | some e => { session := s₁, events := evs₀, result := .error (.base e) }
    | none =>
      match validateTransactionConfig (applyConfigurers cfgs) with
      | some e => { session := s₁, events := evs₀, result := .error (.base e) }
      | none =>
        match getConnection s₁ s₁.defaultMode env.connEnv with
        | (s₂, evs₁, .error e) =>
          { session := s₂, events := evs₀ ++ evs₁, result := .error (wrapError e) }
        | (s₂, evs₁, .ok conn) =>
          match transactionBookmarks s₂ env.mgrBookmarks with
          | .error e =>
            { session := s₂, events := evs₀ ++ evs₁ ++ [.returnConn],
              result := .error (wrapError e) }
          | .ok runBookmarks =>
            match env.runResult with
            | .error e =>
              { session := s₂, events := evs₀ ++ evs₁ ++ [.runQuery, .returnConn],
                result := .error (wrapError e) }
            | .ok h =>
              let tx : TxWrapper :=
                { conn := conn, txHandle := h, sentBookmarks := runBookmarks }
              { session := { s₂ with autocommitTx := some tx },
                events := evs₀ ++ evs₁ ++ [.runQuery], result := .ok tx }

/-- The explicit transaction's completion callback (`onClosed`): merge the
connection-reported bookmark into the tracker, return the connection to the
pool, and clear the session's explicit-transaction reference. -/
def explicitOnClosed (s : Session) (notifyResult : Option BaseError) :
    Session × List Event :=
  match s.explicitTx with
  | none => (s, [])
  | some tx =>
    let r := retrieveBookmarks s tx.conn tx.sentBookmarks notifyResult
    ({ r.1 with explicitTx := none }, r.2.1 ++ [.returnConn])

/-- Scripted outcomes of the collaborator calls `Close` makes. -/
structure CloseEnv where
  txCloseResult : Option BaseError
  notifyResult : Option BaseError
  poolResult : Option BaseError
  routerResult : Option BaseError
deriving Repr

/-- Modelled from the spec: `errorutil.CombineAllErrors` (not under src/)
aggregates all collected errors into one; the aggregate is modelled as the
list of errors actually present (empty = nil error). -/
def CombineAllErrors (errs : List (Option DriverError)) : List DriverError :=
  errs.filterMap id

/-- `Close`: close any open explicit transaction collecting its error
(modelled from the spec for the wrapper's `Close`: roll back, merge bookmarks,
return the connection), discard any pending autocommit transaction, then run
pool cleanup and routing cleanup — joined before returning — and aggregate the
three errors. -/
def Close (s : Session) (env : CloseEnv) : Session × List Event × List DriverError :=
  let c1 : Option DriverError × List Event × Session :=
    match s.explicitTx with
    | some tx =>
      let r := retrieveBookmarks s tx.conn tx.sentBookmarks env.notifyResult
      (wrapErrorOpt env.txCloseResult, [.txRollback, .txClose] ++ r.2.1 ++ [.returnConn],
        { r.1 with explicitTx := none })
    | none => (none, [], s)
  let txErr := c1.1
  let s₁ := c1.2.2
  let c2 : Session × List Event :=
    match s₁.autocommitTx with
    | some _ => ({ s₁ with autocommitTx := none }, [.returnConn])
    | none => (s₁, [])
  let poolErr := wrapErrorOpt env.poolResult
  let routerErr := wrapErrorOpt env.routerResult
  (c2.1, c1.2.1 ++ c2.2 ++ [.poolCleanUp, .routerCleanUp],
    CombineAllErrors [txErr, poolErr, routerErr])

/-- One application-visible session operation together with its scripted
environment (the completion callbacks fire as their own steps). -/
inductive SessionOp where
  | opBegin (cfgs : List (TransactionConfig → TransactionConfig)) (env : BeginEnv)
  | opExecute (mode : AccessMode) (cfgs : List (TransactionConfig → TransactionConfig))
      (renv : RetryEnv)
  | opRun (cfgs : List (TransactionConfig → TransactionConfig)) (env : RunEnv)
  | opClose (env : CloseEnv)
  | opLastBookmarks
  | opExplicitComplete (notifyResult : Option BaseError)
  | opAutocommitComplete

/-- The session-state effect of one operation. -/
def applyOp (s : Session) : SessionOp → Session
  | .opBegin cfgs env => (BeginTransaction s cfgs env).session
  | .opExecute mode cfgs renv => (runRetriable s mode cfgs renv).session
  | .opRun cfgs env => (Run s cfgs env).session
  | .opClose env => (Close s env).1
  | .opLastBookmarks => (LastBookmarks s).1
  | .opExplicitComplete notifyResult => (explicitOnClosed s notifyResult).1
  | .opAutocommitComplete => (autocommitDone s).1

/-- A sequence of session operations applied in order. -/
def applyOps (s : Session) (ops : List SessionOp) : Session :=
  ops.foldl applyOp s

/-- The session invariant: at most one of the explicit and the autocommit
transaction field is non-nil. -/
abbrev sessionInv (s : Session) : Prop :=
  s.explicitTx = none ∨ s.autocommitTx = none

/-- A sequence of `resolveHomeDatabase` calls with their scripted
environments, accumulating the event trace. -/
def resolveCalls : Session → List GetConnEnv → Session × List Event
  | s, [] => (s, [])
  | s, env :: rest =>
    let r := resolveHomeDatabase s env
    let r₂ := resolveCalls r.1 rest
    (r₂.1, r.2.1 ++ r₂.2)

/-- The number of routing lookups (`router.GetNameOfDefaultDatabase` calls)
in an event trace. -/
def lookupCount (evs : List Event) : Nat :=
  (evs.filter (fun e => e = Event.routingLookup)).length

/-- A sample healthy connection (database selection supported). -/
def sampleConn : ConnInfo :=
  { serverName := "server1", supportsDbSelection := true,
    bookmark := "bm-new", bookmarkDb := "" }

/-- A sample connection without the database-selection capability. -/
def sampleConnNoSelect : ConnInfo :=
  { serverName := "server1", supportsDbSelection := false,
    bookmark := "bm-new", bookmarkDb := "" }

/-- A connection-acquisition script in which every collaborator call
succeeds. -/
def okConnEnv : GetConnEnv :=
  { routingBmResult := .ok [], resolveDbResult := .ok "neo4j",
    serversResult := .ok ["server1"], borrowResult := .ok sampleConn }

/-- A connection-acquisition script whose routing lookup fails. -/
def lookupFailConnEnv : GetConnEnv :=
  { routingBmResult := .ok [],
    resolveDbResult := .error (.connectivityError "router down"),
    serversResult := .ok ["server1"], borrowResult := .ok sampleConn }

/-- A sample session pinned to the default database, no pending transactions,
no bookmark manager. -/
def sampleSession : Session :=
  { defaultMode := .write
    bookmarks := { hasManager := false, currentBookmarks := ["bm-0"] }
    databaseName := ""
    impersonatedUser := ""
    resolveHomeDb := false
    explicitTx := none
    autocommitTx := none
    maxRetryTime := 10 }

/-- A sample pending transaction wrapper. -/
def sampleTx : TxWrapper :=
  { conn := sampleConn, txHandle := 7, sentBookmarks := ["bm-0"] }

/-- A scripted attempt in which every collaborator call succeeds. -/
def okAttempt : AttemptEnv :=
  { duration := 1, connEnv := okConnEnv, mgrBookmarks := .ok [],
    txBeginResult := .ok 1, workResult := .ok 42, commitResult := none,
    notifyResult := none }

/-- A scripted attempt whose work closure fails with a retryable
connectivity error. -/
def retryableFailAttempt : AttemptEnv :=
  { okAttempt with workResult := .error (.connectivityError "server gone") }

/-- A scripted attempt whose work closure fails with a non-retryable usage
error. -/
def fatalFailAttempt : AttemptEnv :=
  { okAttempt with workResult := .error (.usageError "bad work") }

/-- A sample `BeginTransaction` environment in which every call succeeds. -/
def sampleBeginEnv : BeginEnv :=
  { filtersResult := none, connEnv := okConnEnv, mgrBookmarks := .ok [],
    txBeginResult := .ok 3 }

/-- A sample `Run` environment in which every call succeeds. -/
def sampleRunEnv : RunEnv :=
  { filtersResult := none, connEnv := okConnEnv, mgrBookmarks := .ok [],
    runResult := .ok 3 }

/-- A sample `Close` environment with a failing transaction close and a
failing pool cleanup. -/
def sampleCloseEnv : CloseEnv :=
  { txCloseResult := some (.connectivityError "tx close failed"),
    notifyResult := none,
    poolResult := some (.connectivityError "pool cleanup failed"),
    routerResult := none }

/-- A retriable script whose single attempt fails with a non-retryable
usage error. -/
def fatalRetryEnv : RetryEnv :=
  { filtersResult := none, startTime := 0, script := [fatalFailAttempt] }

/-- A retriable script whose attempts all fail with a retryable connectivity
error; the attempts outlast the sample budget of 10 time units. -/
def exhaustingRetryEnv : RetryEnv :=
  { filtersResult := none, startTime := 0,
    script := List.replicate 11 retryableFailAttempt }

/-- A fresh session created without an explicit database name. -/
def c7Session : Session := newSessionWithContext "" .write false [] 10

/-- A session holding an open explicit transaction. -/
def sessionWithExplicitTx : Session := { sampleSession with explicitTx := some sampleTx }

/-- A session holding a pending autocommit transaction. -/
def sessionWithAutocommitTx : Session := { sampleSession with autocommitTx := some sampleTx }

/-- A session pinned to a non-default database. -/
def sessionOnDb : Session := { sampleSession with databaseName := "movies" }

/-- A session with an external bookmark manager configured. -/
def managedSession : Session :=
  { sampleSession with bookmarks := { hasManager := true, currentBookmarks := ["bm-0"] } }

/-- A scripted attempt whose commit fails with a usage error (normally never
retryable). -/
def commitFailAttempt : AttemptEnv :=
  { okAttempt with commitResult := some (.usageError "commit broke") }

/-- A scripted attempt whose authority notification fails after a successful
commit. -/
def notifyFailAttempt : AttemptEnv :=
  { okAttempt with notifyResult := some (.connectivityError "manager down") }

/-! ## Theorems -/

/-- `resolveHomeDatabase` only touches the database name and the
resolution flag. -/
theorem resolveHomeDatabase_fields (s : Session) (env : GetConnEnv) :
    (resolveHomeDatabase s env).1.explicitTx = s.explicitTx ∧
    (resolveHomeDatabase s env).1.autocommitTx = s.autocommitTx ∧
    (resolveHomeDatabase s env).1.bookmarks = s.bookmarks ∧
    (resolveHomeDatabase s env).1.defaultMode = s.defaultMode ∧
    (resolveHomeDatabase s env).1.maxRetryTime = s.maxRetryTime := by
  unfold resolveHomeDatabase
  split
  · simp
  · cases hr : env.routingBmResult with
    | error e => simp [hr]
    | ok v =>
      cases hd : env.resolveDbResult with
      | error e => simp [hr, hd]
      | ok db => simp [hr, hd]

/-- The events of `resolveHomeDatabase` are routing lookups only. -/
theorem resolveHomeDatabase_events (s : Session) (env : GetConnEnv) :
    ∀ e ∈ (resolveHomeDatabase s env).2.1, e = Event.routingLookup := by
  unfold resolveHomeDatabase
  split
  · simp
  · cases hr : env.routingBmResult with
    | error e => simp [hr]
    | ok v =>
      cases hd : env.resolveDbResult with
      | error e => simp [hr, hd]
      | ok db => simp [hr, hd]

/-- `getConnection` only touches the database name and the resolution flag. -/
theorem getConnection_fields (s : Session) (mode : AccessMode) (env : GetConnEnv) :
    (getConnection s mode env).1.explicitTx = s.explicitTx ∧
    (getConnection s mode env).1.autocommitTx = s.autocommitTx ∧
    (getConnection s mode env).1.bookmarks = s.bookmarks ∧
    (getConnection s mode env).1.defaultMode = s.defaultMode ∧
    (getConnection s mode env).1.maxRetryTime = s.maxRetryTime := by
  have hfields := resolveHomeDatabase_fields s env
  unfold getConnection
  split
  next s₁ evs e heq =>
    rw [heq] at hfields
    exact hfields
  next s₁ evs heq =>
    rw [heq] at hfields
    cases hs : env.serversResult with
    | error e => simpa [hs] using hfields
    | ok srv =>
      cases hb : env.borrowResult with
      | error e => simpa [hs, hb] using hfields
      | ok conn =>
        by_cases hdb : s₁.databaseName ≠ DefaultDatabase
        · by_cases hc : conn.supportsDbSelection
          · simpa [hs, hb, hdb, hc] using hfields
          · simpa [hs, hb, hdb, hc] using hfields
        · simpa [hs, hb, hdb] using hfields

/-- The events of `getConnection` never include rollbacks, commits or
session-level error logs. -/
theorem getConnection_events (s : Session) (mode : AccessMode) (env : GetConnEnv) :
    ∀ e ∈ (getConnection s mode env).2.1,
      e = Event.routingLookup ∨ e = Event.borrow ∨ e = Event.returnConn ∨
      ∃ d, e = Event.selectDatabase d := by
  have hres := resolveHomeDatabase_events s env
  intro x hx
  unfold getConnection at hx
  split at hx
  next s₁ evs e heq =>
    rw [heq] at hres
    exact Or.inl (hres x hx)
  next s₁ evs heq =>
    rw [heq] at hres
    simp only at hres
    cases hs : env.serversResult
    case error e =>
      simp only [hs] at hx
      exact Or.inl (hres x hx)
    case ok srv =>
      cases hb : env.borrowResult
      case error e =>
        simp only [hs, hb] at hx
        simp at hx
        rcases hx with hx | hx
        · exact Or.inl (hres x hx)
        · subst hx
          exact Or.inr (Or.inl rfl)
      case ok conn =>
        simp only [hs, hb] at hx
        split at hx
        · split at hx
          · simp at hx
            rcases hx with hx | hx | hx
            · exact Or.inl (hres x hx)
            · subst hx; exact Or.inr (Or.inl rfl)
            · subst hx; exact Or.inr (Or.inr (Or.inr ⟨s₁.databaseName, rfl⟩))
          · simp at hx
            rcases hx with hx | hx | hx
            · exact Or.inl (hres x hx)
            · subst hx; exact Or.inr (Or.inl rfl)
            · subst hx; exact Or.inr (Or.inr (Or.inl rfl))
        · simp at hx
          rcases hx with hx | hx
          · exact Or.inl (hres x hx)
          · subst hx
            exact Or.inr (Or.inl rfl)

/-- `retrieveBookmarks` only touches the tracker. -/
theorem retrieveBookmarks_fields (s : Session) (conn : ConnInfo) (sent : List String)
    (notifyResult : Option BaseError) :
    (retrieveBookmarks s conn sent notifyResult).1.explicitTx = s.explicitTx ∧
    (retrieveBookmarks s conn sent notifyResult).1.autocommitTx = s.autocommitTx ∧
    (retrieveBookmarks s conn sent notifyResult).1.databaseName = s.databaseName := by
  cases notifyResult <;>
    · unfold retrieveBookmarks replaceBookmarks
      split_ifs <;> simp

/-- The events of `retrieveBookmarks` are authority notifications only. -/
theorem retrieveBookmarks_events (s : Session) (conn : ConnInfo) (sent : List String)
    (notifyResult : Option BaseError) :
    ∀ e ∈ (retrieveBookmarks s conn sent notifyResult).2.1,
      ∃ d sb nb, e = Event.notifyAuthority d sb nb := by
  cases notifyResult <;>
    · unfold retrieveBookmarks replaceBookmarks
      split_ifs <;> intro e he <;> simp at he <;> exact ⟨_, _, _, he⟩

/-- C4: `BeginTransaction` called while an explicit transaction is already
open returns a usage error and changes nothing: the session (including the
open transaction and the bookmark state) is returned exactly as it was, no
connection is borrowed, and no server-side transaction is begun. -/
theorem c4_begin_while_explicit_open (s : Session) (tx : TxWrapper)
    (h : s.explicitTx = some tx)
    (cfgs : List (TransactionConfig → TransactionConfig)) (env : BeginEnv) :
    (BeginTransaction s cfgs env).result =
      .error (.base (.usageError "Session already has a pending transaction")) ∧
    (BeginTransaction s cfgs env).session = s ∧
    Event.borrow ∉ (BeginTransaction s cfgs env).events ∧
    Event.txBegin ∉ (BeginTransaction s cfgs env).events := by
  have hs : s.explicitTx.isSome = true := by rw [h]; rfl
  unfold BeginTransaction
  rw [if_pos hs]
  refine ⟨rfl, rfl, ?_, ?_⟩ <;> simp

/-- C4 witness. -/
theorem c4_begin_while_explicit_open_witness :
    (BeginTransaction sessionWithExplicitTx [] sampleBeginEnv).result =
      .error (.base (.usageError "Session already has a pending transaction")) ∧
    (BeginTransaction sessionWithExplicitTx [] sampleBeginEnv).session =
      sessionWithExplicitTx :=
  ⟨(c4_begin_while_explicit_open sessionWithExplicitTx sampleTx rfl [] sampleBeginEnv).1,
   (c4_begin_while_explicit_open sessionWithExplicitTx sampleTx rfl [] sampleBeginEnv).2.1⟩

/-- C8: when the session's (resolved) database name is not the default and the
borrowed connection does not support database selection, `getConnection`
returns the connection to the pool and fails with a usage error: the event
trace is exactly the borrow followed by the return, with the error surfaced
afterwards and no fallback path. -/
theorem c8_multidb_unsupported (s : Session) (mode : AccessMode) (env : GetConnEnv)
    (conn : ConnInfo) (srv : List String)
    (hr : s.resolveHomeDb = false) (hdb : s.databaseName ≠ DefaultDatabase)
    (hsrv : env.serversResult = .ok srv) (hb : env.borrowResult = .ok conn)
    (hcap : conn.supportsDbSelection = false) :
    (getConnection s mode env).2.2 =
      .error (.usageError "Database does not support multi-database") ∧
    (getConnection s mode env).2.1 = [Event.borrow, Event.returnConn] ∧
    (getConnection s mode env).1 = s := by
  unfold getConnection resolveHomeDatabase
  simp [hr, hsrv, hb, hdb, hcap]

/-- C8 witness. -/
theorem c8_multidb_unsupported_witness :
    (getConnection sessionOnDb .write
        { okConnEnv with borrowResult := .ok sampleConnNoSelect }).2.2 =
      .error (.usageError "Database does not support multi-database") ∧
    (getConnection sessionOnDb .write
        { okConnEnv with borrowResult := .ok sampleConnNoSelect }).2.1 =
      [Event.borrow, Event.returnConn] :=
  ⟨(c8_multidb_unsupported sessionOnDb .write
      { okConnEnv with borrowResult := .ok sampleConnNoSelect }
      sampleConnNoSelect ["server1"] rfl (by decide) rfl rfl rfl).1,
   (c8_multidb_unsupported sessionOnDb .write
      { okConnEnv with borrowResult := .ok sampleConnNoSelect }
      sampleConnNoSelect ["server1"] rfl (by decide) rfl rfl rfl).2.1⟩

/-- C6: with an autocommit transaction pending, `LastBookmarks` first drains
the connection-level bookmark into the session-local set via
`retrieveSessionBookmarks` — emitting no notification to the external
bookmark authority — and then returns the tracker's current bookmark set;
hence a non-empty bookmark produced by the pending transaction is observable
in the returned set without further operations. -/
theorem c6_lastbookmarks_drains (s : Session) (tx : TxWrapper)
    (h : s.autocommitTx = some tx) :
    (LastBookmarks s).1 = retrieveSessionBookmarks s tx.conn ∧
    (∀ d sb nb, Event.notifyAuthority d sb nb ∉ (LastBookmarks s).2.1) ∧
    (LastBookmarks s).2.2 =
      (replaceSessionBookmarks s.bookmarks tx.conn.bookmark).currentBookmarks ∧
    (tx.conn.bookmark ≠ "" →
      (LastBookmarks s).2.2 = [tx.conn.bookmark] ∧
      tx.conn.bookmark ∈ (LastBookmarks s).2.2) := by
  unfold LastBookmarks
  rw [h]
  refine ⟨rfl, by simp, rfl, ?_⟩
  intro hbm
  unfold retrieveSessionBookmarks replaceSessionBookmarks
  simp [hbm]

/-- C6 witness. -/
theorem c6_lastbookmarks_drains_witness :
    (LastBookmarks sessionWithAutocommitTx).2.2 = ["bm-new"] ∧
    "bm-new" ∈ (LastBookmarks sessionWithAutocommitTx).2.2 :=
  (c6_lastbookmarks_drains sessionWithAutocommitTx sampleTx rfl).2.2.2 (by decide)

/-- C3: `Close` closes any open explicit transaction collecting its error,
discards any pending autocommit transaction, runs pool cleanup and routing
cleanup and joins both before returning regardless of the other errors, and
returns the aggregate of the transaction-close, pool-cleanup and
routing-cleanup errors. -/
theorem c3_close_aggregates (s : Session) (env : CloseEnv) :
    Event.poolCleanUp ∈ (Close s env).2.1 ∧
    Event.routerCleanUp ∈ (Close s env).2.1 ∧
    (Close s env).2.2 = CombineAllErrors
      [if s.explicitTx.isSome then wrapErrorOpt env.txCloseResult else none,
       wrapErrorOpt env.poolResult, wrapErrorOpt env.routerResult] ∧
    (Close s env).1.explicitTx = none ∧
    (Close s env).1.autocommitTx = none ∧
    (s.explicitTx.isSome = true → Event.txClose ∈ (Close s env).2.1) := by
  unfold Close
  cases hex : s.explicitTx
  case none =>
    cases hac : s.autocommitTx
    case none => simp [hex, hac]
    case some tx => simp [hex, hac]
  case some tx =>
    obtain ⟨hf1, hf2, hf3⟩ :=
      retrieveBookmarks_fields s tx.conn tx.sentBookmarks env.notifyResult
    cases hac : s.autocommitTx
    case none => simp [hex, hf2, hac]
    case some tx₂ => simp [hex, hf2, hac]

/-- C10: every configured timeout that is negative and different from the
`math.MinInt` sentinel makes `validateTransactionConfig` — and hence
`BeginTransaction`, `Run`, `ExecuteRead` and `ExecuteWrite` — fail with a
usage error naming the given timeout, before any connection is borrowed from
the pool; the sentinel itself and all non-negative timeouts pass
validation. -/
theorem c10_negative_timeout_rejected (t : Int)
    (cfgs : List (TransactionConfig → TransactionConfig))
    (ht : (applyConfigurers cfgs).timeout = t) (hneg : t < 0) (hsent : t ≠ mathMinInt)
    (s : Session) (hguard : s.explicitTx = none)
    (benv : BeginEnv) (hbf : benv.filtersResult = none)
    (runenv : RunEnv) (hrunf : runenv.filtersResult = none)
    (renv : RetryEnv) (hrf : renv.filtersResult = none) :
    validateTransactionConfig (applyConfigurers cfgs) =
      some (.usageError
        ("Negative transaction timeouts are not allowed. Given: " ++ toString t)) ∧
    (BeginTransaction s cfgs benv).result =
      .error (.base (.usageError
        ("Negative transaction timeouts are not allowed. Given: " ++ toString t))) ∧
    Event.borrow ∉ (BeginTransaction s cfgs benv).events ∧
    (Run s cfgs runenv).result =
      .error (.base (.usageError
        ("Negative transaction timeouts are not allowed. Given: " ++ toString t))) ∧
    Event.borrow ∉ (Run s cfgs runenv).events ∧
    (ExecuteRead s cfgs renv).error =
      some (.base (.usageError
        ("Negative transaction timeouts are not allowed. Given: " ++ toString t))) ∧
    Event.borrow ∉ (ExecuteRead s cfgs renv).events ∧
    (ExecuteWrite s cfgs renv).error =
      some (.base (.usageError
        ("Negative transaction timeouts are not allowed. Given: " ++ toString t))) ∧
    Event.borrow ∉ (ExecuteWrite s cfgs renv).events ∧
    (∀ c : TransactionConfig, 0 ≤ c.timeout ∨ c.timeout = mathMinInt →
      validateTransactionConfig c = none) := by
  have hguard' : s.explicitTx.isSome = false := by rw [hguard]; rfl
  have hval : validateTransactionConfig (applyConfigurers cfgs) =
      some (.usageError
        ("Negative transaction timeouts are not allowed. Given: " ++ toString t)) := by
    unfold validateTransactionConfig
    rw [ht, if_pos ⟨hsent, hneg⟩]
  refine ⟨hval, ?_, ?_, ?_, ?_, ?_, ?_, ?_, ?_, ?_⟩
  · unfold BeginTransaction
    cases hac : s.autocommitTx <;>
      simp [hguard', hbf, hval, autocommitDone, hac]
  · unfold BeginTransaction
    cases hac : s.autocommitTx <;>
      simp [hguard', hbf, hval, autocommitDone, hac]
  · unfold Run
    cases hac : s.autocommitTx <;>
      simp [hguard', hrunf, hval, autocommitDone, hac]
  · unfold Run
    cases hac : s.autocommitTx <;>
      simp [hguard', hrunf, hval, autocommitDone, hac]
  · unfold ExecuteRead runRetriable
    cases hac : s.autocommitTx <;>
      simp [hguard', hrf, hval, autocommitDone, hac]
  · unfold ExecuteRead runRetriable
    cases hac : s.autocommitTx <;>
      simp [hguard', hrf, hval, autocommitDone, hac]
  · unfold ExecuteWrite runRetriable
    cases hac : s.autocommitTx <;>
      simp [hguard', hrf, hval, autocommitDone, hac]
  · unfold ExecuteWrite runRetriable
    cases hac : s.autocommitTx <;>
      simp [hguard', hrf, hval, autocommitDone, hac]
  · intro c hc
    unfold validateTransactionConfig
    rw [if_neg]
    rintro ⟨h1, h2⟩
    rcases hc with hc | hc
    · exact absurd h2 (not_lt.mpr hc)
    · exact h1 hc

/-- C10 witness. -/
theorem c10_negative_timeout_rejected_witness :
    (BeginTransaction sampleSession
        [fun c => { c with timeout := -5 }] sampleBeginEnv).result =
      .error (.base (.usageError
        ("Negative transaction timeouts are not allowed. Given: " ++ toString (-5 : Int)))) :=
  (c10_negative_timeout_rejected (-5) [fun c => { c with timeout := -5 }] rfl
    (by decide) (by decide) sampleSession rfl sampleBeginEnv rfl
    sampleRunEnv rfl fatalRetryEnv rfl).2.1

/-- Once the session's database is pinned, `resolveHomeDatabase` is a
no-op. -/
theorem resolveHomeDatabase_noop (s : Session) (env : GetConnEnv)
    (h : s.resolveHomeDb = false) : resolveHomeDatabase s env = (s, [], none) := by
  unfold resolveHomeDatabase
  rw [if_pos h]

/-- A call of `resolveHomeDatabase` that returns no error leaves the session
pinned. -/
theorem resolveHomeDatabase_success_pins (s : Session) (env : GetConnEnv)
    (h : (resolveHomeDatabase s env).2.2 = none) :
    (resolveHomeDatabase s env).1.resolveHomeDb = false := by
  by_cases hr : s.resolveHomeDb = false
  · simp [resolveHomeDatabase, hr]
  · unfold resolveHomeDatabase at h ⊢
    rw [if_neg hr] at h ⊢
    cases hb : env.routingBmResult with
    | error e => simp [hb] at h
    | ok v =>
      cases hd : env.resolveDbResult with
      | error e => simp [hb, hd] at h
      | ok db => simp [hb, hd]

/-- A pinned session stays untouched by any further sequence of
`resolveHomeDatabase` calls: no lookups happen and the session — in
particular its database name — is unchanged. -/
theorem resolveCalls_pinned (s : Session) (envs : List GetConnEnv)
    (h : s.resolveHomeDb = false) : resolveCalls s envs = (s, []) := by
  induction envs with
  | nil => rfl
  | cons env rest ih =>
    show resolveCalls s (env :: rest) = (s, [])
    unfold resolveCalls
    rw [resolveHomeDatabase_noop s env h]
    simp [ih]

/-- C7 counterexample: a fresh session created without an explicit database
name, whose router fails the default-database lookup, performs one routing
lookup per `resolveHomeDatabase` call — two calls yield two lookups, refuting
"at most one routing lookup over the session's lifetime regardless of call
count". -/
theorem c7_counterexample :
    ¬ (lookupCount (resolveCalls c7Session [lookupFailConnEnv, lookupFailConnEnv]).2 ≤ 1) := by
  decide

/-- C7 (amended): `resolveHomeDatabase` performs at most one **successful**
routing lookup per session lifetime: once the session is pinned — created
with an explicit database name, or after the first call that returns without
error — every later call is a no-op (no lookup, session and resolved name
unchanged); only a failed lookup may be retried by a later call. -/
theorem c7_resolve_home_database_amended :
    (∀ s env, s.resolveHomeDb = false → resolveHomeDatabase s env = (s, [], none)) ∧
    (∀ s env, (resolveHomeDatabase s env).2.2 = none →
      (resolveHomeDatabase s env).1.resolveHomeDb = false) ∧
    (∀ s envs, s.resolveHomeDb = false →
      resolveCalls s envs = (s, []) ∧
      lookupCount (resolveCalls s envs).2 = 0 ∧
      (resolveCalls s envs).1.databaseName = s.databaseName) ∧
    (∀ s env envs, (resolveHomeDatabase s env).2.2 = none →
      resolveCalls (resolveHomeDatabase s env).1 envs =
        ((resolveHomeDatabase s env).1, [])) :=
  ⟨resolveHomeDatabase_noop,
   resolveHomeDatabase_success_pins,
   fun s envs h => by rw [resolveCalls_pinned s envs h]; exact ⟨rfl, rfl, rfl⟩,
   fun s env envs h =>
     resolveCalls_pinned _ envs (resolveHomeDatabase_success_pins s env h)⟩

/-- C7 amended-claim witness. -/
theorem c7_resolve_home_database_amended_witness :
    resolveCalls sampleSession [okConnEnv] = (sampleSession, []) ∧
    lookupCount (resolveCalls sampleSession [okConnEnv]).2 = 0 :=
  ⟨(c7_resolve_home_database_amended.2.2.1 sampleSession [okConnEnv] rfl).1,
   (c7_resolve_home_database_amended.2.2.1 sampleSession [okConnEnv] rfl).2.1⟩

/-- C3 witness. -/
theorem c3_close_aggregates_witness :
    (Close sessionWithExplicitTx sampleCloseEnv).2.2 =
      [.base (.connectivityError "tx close failed"),
       .base (.connectivityError "pool cleanup failed")] ∧
    Event.routerCleanUp ∈ (Close sessionWithExplicitTx sampleCloseEnv).2.1 := by
  refine ⟨?_, (c3_close_aggregates sessionWithExplicitTx sampleCloseEnv).2.1⟩
  have h := (c3_close_aggregates sessionWithExplicitTx sampleCloseEnv).2.2.1
  rw [h]
  decide

/-- The events recorded by `RetryState.OnFailure` are routing invalidations
only. -/
theorem OnFailure_events (st : RetryState) (conn : Option ConnInfo) (err : BaseError)
    (b : Bool) :
    ∀ e ∈ (st.OnFailure conn err b).2,
      (∃ d sv, e = Event.invalidateReader d sv) ∨
      (∃ d sv, e = Event.invalidateWriter d sv) := by
  intro e he
  unfold RetryState.OnFailure at he
  rcases conn with _ | c
  · simp at he
  · rcases err with m | m | ⟨c', r⟩
    · simp at he
    · simp only at he
      split at he
      · simp at he
        subst he
        exact Or.inr ⟨_, _, rfl⟩
      · simp at he
        subst he
        exact Or.inl ⟨_, _, rfl⟩
    · simp at he

/-- C5: within one attempt of the retry loop, a commit failure is recorded
with the retryable-but-ambiguous flag set regardless of the underlying error;
a work-closure failure is recorded classified by error kind, triggers no
explicit rollback, and the connection is simply returned to the pool; and
connection-acquisition and transaction-begin failures are recorded without
the flag and make the attempt report `tryAgain` to the retry loop instead of
surfacing a result. -/
theorem c5_attempt_failure_classification :
    (∀ s mode st env s₁ evs conn bms th x e,
      getConnection s mode env.connEnv = (s₁, evs, .ok conn) →
      transactionBookmarks s₁ env.mgrBookmarks = .ok bms →
      env.txBeginResult = .ok th → env.workResult = .ok x →
      env.commitResult = some e →
      ((executeTransactionFunction s mode st env).2.1.lastErrWasRetryable = true ∧
       (executeTransactionFunction s mode st env).2.1.lastErr = some e ∧
       (executeTransactionFunction s mode st env).2.1.errs = st.errs ++ [e] ∧
       (executeTransactionFunction s mode st env).2.2.2.1 = true)) ∧
    (∀ s mode st env s₁ evs conn bms th e,
      getConnection s mode env.connEnv = (s₁, evs, .ok conn) →
      transactionBookmarks s₁ env.mgrBookmarks = .ok bms →
      env.txBeginResult = .ok th → env.workResult = .error e →
      ((executeTransactionFunction s mode st env).2.1.lastErrWasRetryable = isRetryable e ∧
       (executeTransactionFunction s mode st env).2.1.lastErr = some e ∧
       (executeTransactionFunction s mode st env).2.1.errs = st.errs ++ [e] ∧
       (executeTransactionFunction s mode st env).2.2.2.1 = true ∧
       Event.txRollback ∉ (executeTransactionFunction s mode st env).2.2.1 ∧
       Event.returnConn ∈ (executeTransactionFunction s mode st env).2.2.1)) ∧
    (∀ s mode st env s₁ evs e,
      getConnection s mode env.connEnv = (s₁, evs, .error e) →
      ((executeTransactionFunction s mode st env).2.1.lastErrWasRetryable = isRetryable e ∧
       (executeTransactionFunction s mode st env).2.1.lastErr = some e ∧
       (executeTransactionFunction s mode st env).2.1.errs = st.errs ++ [e] ∧
       (executeTransactionFunction s mode st env).2.2.2.1 = true ∧
       (executeTransactionFunction s mode st env).2.2.2.2 = none)) ∧
    (∀ s mode st env s₁ evs conn bms e,
      getConnection s mode env.connEnv = (s₁, evs, .ok conn) →
      transactionBookmarks s₁ env.mgrBookmarks = .ok bms →
      env.txBeginResult = .error e →
      ((executeTransactionFunction s mode st env).2.1.lastErrWasRetryable = isRetryable e ∧
       (executeTransactionFunction s mode st env).2.1.lastErr = some e ∧
       (executeTransactionFunction s mode st env).2.1.errs = st.errs ++ [e] ∧
       (executeTransactionFunction s mode st env).2.2.2.1 = true ∧
       (executeTransactionFunction s mode st env).2.2.2.2 = none)) := by
  refine ⟨?_, ?_, ?_, ?_⟩
  · intro s mode st env s₁ evs conn bms th x e hconn hbm hbegin hwork hcommit
    unfold executeTransactionFunction
    simp only [hconn, hbm, hbegin, hwork, hcommit]
    unfold RetryState.OnFailure
    simp
  · intro s mode st env s₁ evs conn bms th e hconn hbm hbegin hwork
    have hge := getConnection_events s mode env.connEnv
    rw [hconn] at hge
    simp only at hge
    unfold executeTransactionFunction
    simp only [hconn, hbm, hbegin, hwork]
    refine ⟨?_, ?_, ?_, ?_, ?_, ?_⟩
    · unfold RetryState.OnFailure; simp
    · unfold RetryState.OnFailure; simp
    · unfold RetryState.OnFailure; simp
    · trivial
    · intro hmem
      rcases List.mem_append.mp hmem with hmem₁ | hmem₁
      · rcases List.mem_append.mp hmem₁ with hmem₂ | hmem₂
        · rcases List.mem_append.mp hmem₂ with hmem₃ | hmem₃
          · have := hge _ hmem₃; simp at this
          · simp at hmem₃
        · have := OnFailure_events _ _ _ _ _ hmem₂; simp at this
      · simp at hmem₁
    · simp
  · intro s mode st env s₁ evs e hconn
    unfold executeTransactionFunction
    simp only [hconn]
    unfold RetryState.OnFailure
    simp
  · intro s mode st env s₁ evs conn bms e hconn hbm hbegin
    unfold executeTransactionFunction
    simp only [hconn, hbm, hbegin]
    unfold RetryState.OnFailure
    simp

/-- C5 witness. -/
theorem c5_attempt_failure_classification_witness :
    (executeTransactionFunction sampleSession .write
        (initialRetryState sampleSession .write 0)
        commitFailAttempt).2.1.lastErrWasRetryable = true ∧
    (executeTransactionFunction sampleSession .write
        (initialRetryState sampleSession .write 0)
        commitFailAttempt).2.2.2.1 = true :=
  ⟨(c5_attempt_failure_classification.1 sampleSession .write
      (initialRetryState sampleSession .write 0) commitFailAttempt sampleSession
      [Event.borrow] sampleConn ["bm-0"] 1 42 (.usageError "commit broke")
      rfl rfl rfl rfl rfl).1,
   (c5_attempt_failure_classification.1 sampleSession .write
      (initialRetryState sampleSession .write 0) commitFailAttempt sampleSession
      [Event.borrow] sampleConn ["bm-0"] 1 42 (.usageError "commit broke")
      rfl rfl rfl rfl rfl).2.2.2⟩

/-- C9: after a successful commit inside an attempt, a failure while merging
the returned bookmark into the tracker is only logged: the retry state
records no failure, the attempt reports success, and the work closure's
result is returned. -/
theorem c9_commit_succeeded_bookmark_failure_logged :
    ∀ s mode st env s₁ evs conn bms th x e,
      getConnection s mode env.connEnv = (s₁, evs, .ok conn) →
      transactionBookmarks s₁ env.mgrBookmarks = .ok bms →
      env.txBeginResult = .ok th → env.workResult = .ok x →
      env.commitResult = none →
      (retrieveBookmarks s₁ conn bms env.notifyResult).2.2 = some e →
      ((executeTransactionFunction s mode st env).2.2.2.1 = false ∧
       (executeTransactionFunction s mode st env).2.2.2.2 = some x ∧
       (executeTransactionFunction s mode st env).2.1 =
         { st with now := st.now + env.duration } ∧
       Event.logWarn ∈ (executeTransactionFunction s mode st env).2.2.1 ∧
       (∀ de, Event.logError de ∉ (executeTransactionFunction s mode st env).2.2.1)) := by
  intro s mode st env s₁ evs conn bms th x e hconn hbm hbegin hwork hcommit hfail
  have hge := getConnection_events s mode env.connEnv
  rw [hconn] at hge
  simp only at hge
  have hrb := retrieveBookmarks_events s₁ conn bms env.notifyResult
  unfold executeTransactionFunction
  simp only [hconn, hbm, hbegin, hwork, hcommit, hfail]
  refine ⟨?_, ?_, ?_, ?_, ?_⟩
  · trivial
  · trivial
  · trivial
  · simp
  · intro de hmem
    rcases List.mem_append.mp hmem with hmem₁ | hmem₁
    · rcases List.mem_append.mp hmem₁ with hmem₂ | hmem₂
      · rcases List.mem_append.mp hmem₂ with hmem₃ | hmem₃
        · rcases List.mem_append.mp hmem₃ with hmem₄ | hmem₄
          · have := hge _ hmem₄; simp at this
          · simp at hmem₄
        · have := hrb _ hmem₃; simp at this
      · simp at hmem₂
    · simp at hmem₁

/-- C9 witness. -/
theorem c9_commit_succeeded_bookmark_failure_logged_witness :
    (executeTransactionFunction managedSession .write
        (initialRetryState managedSession .write 0) notifyFailAttempt).2.2.2.2 = some 42 ∧
    (executeTransactionFunction managedSession .write
        (initialRetryState managedSession .write 0) notifyFailAttempt).2.2.2.1 = false :=
  ⟨(c9_commit_succeeded_bookmark_failure_logged managedSession .write
      (initialRetryState managedSession .write 0) notifyFailAttempt managedSession
      [Event.borrow] sampleConn ["bm-0"] 1 42 (.connectivityError "manager down")
      rfl rfl rfl rfl rfl rfl).2.1,
   (c9_commit_succeeded_bookmark_failure_logged managedSession .write
      (initialRetryState managedSession .write 0) notifyFailAttempt managedSession
      [Event.borrow] sampleConn ["bm-0"] 1 42 (.connectivityError "manager down")
      rfl rfl rfl rfl rfl rfl).1⟩

/-- Finalizing a pending autocommit transaction clears it, leaves the
explicit slot alone, and returns the connection. -/
theorem autocommitDone_fields (s : Session) :
    (autocommitDone s).1.explicitTx = s.explicitTx ∧
    (autocommitDone s).1.autocommitTx = none ∧
    (s.autocommitTx = none → autocommitDone s = (s, [])) ∧
    (∀ tx, s.autocommitTx = some tx → (autocommitDone s).2 = [Event.returnConn]) := by
  cases h : s.autocommitTx <;> simp [autocommitDone, h]

/-- One attempt of the retry loop never touches the session's transaction
slots. -/
theorem executeTransactionFunction_tx (s : Session) (mode : AccessMode)
    (st : RetryState) (env : AttemptEnv) :
    (executeTransactionFunction s mode st env).1.explicitTx = s.explicitTx ∧
    (executeTransactionFunction s mode st env).1.autocommitTx = s.autocommitTx := by
  obtain ⟨hg1, hg2, -, -, -⟩ := getConnection_fields s mode env.connEnv
  rcases hgc : getConnection s mode env.connEnv with ⟨s₁, evs, res⟩
  rw [hgc] at hg1 hg2
  unfold executeTransactionFunction
  cases res with
  | error e => simp only [hgc]; exact ⟨hg1, hg2⟩
  | ok conn =>
    cases hbm : transactionBookmarks s₁ env.mgrBookmarks with
    | error e => simp only [hgc, hbm]; exact ⟨hg1, hg2⟩
    | ok bms =>
      cases hbg : env.txBeginResult with
      | error e => simp only [hgc, hbm, hbg]; exact ⟨hg1, hg2⟩
      | ok th =>
        cases hw : env.workResult with
        | error e => simp only [hgc, hbm, hbg, hw]; exact ⟨hg1, hg2⟩
        | ok x =>
          cases hc : env.commitResult with
          | some e => simp only [hgc, hbm, hbg, hw, hc]; exact ⟨hg1, hg2⟩
          | none =>
            obtain ⟨hr1, hr2, -⟩ :=
              retrieveBookmarks_fields s₁ conn bms env.notifyResult
            simp only [hgc, hbm, hbg, hw, hc]
            exact ⟨hr1.trans hg1, hr2.trans hg2⟩

/-- The retry loop never touches the session's transaction slots. -/
theorem retryLoop_tx (mode : AccessMode) (script : List AttemptEnv) :
    ∀ s st, (retryLoop mode s st script).1.explicitTx = s.explicitTx ∧
      (retryLoop mode s st script).1.autocommitTx = s.autocommitTx := by
  induction script with
  | nil => intro s st; exact ⟨rfl, rfl⟩
  | cons env rest ih =>
    intro s st
    unfold retryLoop
    by_cases hcont : st.Continue
    · rw [if_pos hcont]
      obtain ⟨he1, he2⟩ := executeTransactionFunction_tx s mode st env
      rcases hef : executeTransactionFunction s mode st env with ⟨s₁, st₁, evs, tga, v⟩
      rw [hef] at he1 he2
      cases tga with
      | true =>
        simp only [hef]
        obtain ⟨hl1, hl2⟩ := ih s₁ st₁
        exact ⟨hl1.trans he1, hl2.trans he2⟩
      | false =>
        simp only [hef]
        exact ⟨he1, he2⟩
    · rw [if_neg hcont]
      exact ⟨rfl, rfl⟩

/-- `BeginTransaction` preserves the single-transaction invariant. -/
theorem BeginTransaction_inv (s : Session)
    (cfgs : List (TransactionConfig → TransactionConfig)) (env : BeginEnv)
    (h : sessionInv s) : sessionInv (BeginTransaction s cfgs env).session := by
  unfold BeginTransaction
  by_cases hs : s.explicitTx.isSome
  · rw [if_pos hs]
    exact h
  · rw [if_neg hs]
    have hnone : s.explicitTx = none := by
      cases hx : s.explicitTx
      · rfl
      · rw [hx] at hs; simp at hs
    obtain ⟨ha1, ha2, -, -⟩ := autocommitDone_fields s
    obtain ⟨hg1, hg2, -, -, -⟩ :=
      getConnection_fields (autocommitDone s).1 (autocommitDone s).1.defaultMode env.connEnv
    rcases hgc : getConnection (autocommitDone s).1 (autocommitDone s).1.defaultMode env.connEnv
      with ⟨s₂, evs₁, res⟩
    rw [hgc] at hg1 hg2
    cases hf : env.filtersResult with
    | some e => simp only [hf]; exact Or.inl (ha1.trans hnone)
    | none =>
      cases hvv : validateTransactionConfig (applyConfigurers cfgs) with
      | some e => simp only [hf, hvv]; exact Or.inl (ha1.trans hnone)
      | none =>
        cases res with
        | error e =>
          simp only [hf, hvv, hgc]
          exact Or.inl (hg1.trans (ha1.trans hnone))
        | ok conn =>
          cases hbm : transactionBookmarks s₂ env.mgrBookmarks with
          | error e =>
            simp only [hf, hvv, hgc, hbm]
            exact Or.inl (hg1.trans (ha1.trans hnone))
          | ok bms =>
            cases hbg : env.txBeginResult with
            | error e =>
              simp only [hf, hvv, hgc, hbm, hbg]
              exact Or.inl (hg1.trans (ha1.trans hnone))
            | ok th =>
              simp only [hf, hvv, hgc, hbm, hbg]
              exact Or.inr (hg2.trans ha2)

/-- `Run` preserves the single-transaction invariant. -/
theorem Run_inv (s : Session)
    (cfgs : List (TransactionConfig → TransactionConfig)) (env : RunEnv)
    (h : sessionInv s) : sessionInv (Run s cfgs env).session := by
  unfold Run
  by_cases hs : s.explicitTx.isSome
  · rw [if_pos hs]
    exact h
  · rw [if_neg hs]
    have hnone : s.explicitTx = none := by
      cases hx : s.explicitTx
      · rfl
      · rw [hx] at hs; simp at hs
    obtain ⟨ha1, ha2, -, -⟩ := autocommitDone_fields s
    obtain ⟨hg1, hg2, -, -, -⟩ :=
      getConnection_fields (autocommitDone s).1 (autocommitDone s).1.defaultMode env.connEnv
    rcases hgc : getConnection (autocommitDone s).1 (autocommitDone s).1.defaultMode env.connEnv
      with ⟨s₂, evs₁, res⟩
    rw [hgc] at hg1 hg2
    cases hf : env.filtersResult with
    | some e => simp only [hf]; exact Or.inl (ha1.trans hnone)
    | none =>
      cases hvv : validateTransactionConfig (applyConfigurers cfgs) with
      | some e => simp only [hf, hvv]; exact Or.inl (ha1.trans hnone)
      | none =>
        cases res with
        | error e =>
          simp only [hf, hvv, hgc]
          exact Or.inl (hg1.trans (ha1.trans hnone))
        | ok conn =>
          cases hbm : transactionBookmarks s₂ env.mgrBookmarks with
          | error e =>
            simp only [hf, hvv, hgc, hbm]
            exact Or.inl (hg1.trans (ha1.trans hnone))
          | ok bms =>
            cases hrr : env.runResult with
            | error e =>
              simp only [hf, hvv, hgc, hbm, hrr]
              exact Or.inl (hg1.trans (ha1.trans hnone))
            | ok th =>
              simp only [hf, hvv, hgc, hbm, hrr]
              exact Or.inl (hg1.trans (ha1.trans hnone))

/-- `runRetriable` preserves the single-transaction invariant. -/
theorem runRetriable_inv (s : Session) (mode : AccessMode)
    (cfgs : List (TransactionConfig → TransactionConfig)) (renv : RetryEnv)
    (h : sessionInv s) : sessionInv (runRetriable s mode cfgs renv).session := by
  unfold runRetriable
  by_cases hs : s.explicitTx.isSome
  · rw [if_pos hs]
    exact h
  · rw [if_neg hs]
    have hnone : s.explicitTx = none := by
      cases hx : s.explicitTx
      · rfl
      · rw [hx] at hs; simp at hs
    obtain ⟨ha1, ha2, -, -⟩ := autocommitDone_fields s
    obtain ⟨hl1, hl2⟩ := retryLoop_tx mode renv.script (autocommitDone s).1
      (initialRetryState (autocommitDone s).1 mode renv.startTime)
    rcases hlp : retryLoop mode (autocommitDone s).1
        (initialRetryState (autocommitDone s).1 mode renv.startTime) renv.script
      with ⟨ls, lst, levs, lval⟩
    rw [hlp] at hl1 hl2
    cases hf : renv.filtersResult with
    | some e => simp only [hf]; exact Or.inl (ha1.trans hnone)
    | none =>
      cases hvv : validateTransactionConfig (applyConfigurers cfgs) with
      | some e => simp only [hf, hvv]; exact Or.inl (ha1.trans hnone)
      | none =>
        cases lval with
        | some x =>
          simp only [hf, hvv, hlp]
          exact Or.inl (hl1.trans (ha1.trans hnone))
        | none =>
          by_cases hretry : lst.lastErrWasRetryable
          · simp only [hf, hvv, hlp, hretry]
            exact Or.inl (hl1.trans (ha1.trans hnone))
          · cases hle : lst.lastErr with
            | some le =>
              simp only [hf, hvv, hlp, hretry, hle]
              exact Or.inl (hl1.trans (ha1.trans hnone))
            | none =>
              simp only [hf, hvv, hlp, hretry, hle]
              exact Or.inl (hl1.trans (ha1.trans hnone))

/-- `Close` clears both transaction slots. -/
theorem Close_tx (s : Session) (env : CloseEnv) :
    (Close s env).1.explicitTx = none ∧ (Close s env).1.autocommitTx = none := by
  unfold Close
  cases hex : s.explicitTx
  case none =>
    cases hac : s.autocommitTx
    case none => simp [hex, hac]
    case some tx => simp [hex, hac]
  case some tx =>
    obtain ⟨hf1, hf2, hf3⟩ :=
      retrieveBookmarks_fields s tx.conn tx.sentBookmarks env.notifyResult
    cases hac : s.autocommitTx
    case none => simp [hex, hf2, hac]
    case some tx₂ => simp [hex, hf2, hac]

/-- `LastBookmarks` never touches the session's transaction slots. -/
theorem LastBookmarks_tx (s : Session) :
    (LastBookmarks s).1.explicitTx = s.explicitTx ∧
    (LastBookmarks s).1.autocommitTx = s.autocommitTx := by
  unfold LastBookmarks
  cases h : s.autocommitTx
  case none => exact ⟨rfl, h⟩
  case some tx => exact ⟨rfl, h⟩

/-- The explicit transaction's completion callback clears the explicit slot,
or is a no-op when no explicit transaction is open. -/
theorem explicitOnClosed_tx (s : Session) (notifyResult : Option BaseError) :
    (explicitOnClosed s notifyResult).1.explicitTx = none ∨
      (explicitOnClosed s notifyResult).1 = s := by
  unfold explicitOnClosed
  cases h : s.explicitTx
  case none => exact Or.inr rfl
  case some tx => exact Or.inl rfl

/-- Every session operation preserves the single-transaction invariant. -/
theorem applyOp_inv (s : Session) (op : SessionOp) (h : sessionInv s) :
    sessionInv (applyOp s op) := by
  cases op with
  | opBegin cfgs env => exact BeginTransaction_inv s cfgs env h
  | opExecute mode cfgs renv => exact runRetriable_inv s mode cfgs renv h
  | opRun cfgs env => exact Run_inv s cfgs env h
  | opClose env => exact Or.inl (Close_tx s env).1
  | opLastBookmarks =>
    obtain ⟨h1, h2⟩ := LastBookmarks_tx s
    show sessionInv (LastBookmarks s).1
    rcases h with h | h
    · exact Or.inl (h1.trans h)
    · exact Or.inr (h2.trans h)
  | opExplicitComplete notifyResult =>
    rcases explicitOnClosed_tx s notifyResult with h' | h'
    · exact Or.inl h'
    · show sessionInv (explicitOnClosed s notifyResult).1
      rw [h']
      exact h
  | opAutocommitComplete => exact Or.inr (autocommitDone_fields s).2.1

/-- Finalization signature: when the guard passes and an autocommit
transaction is pending, `BeginTransaction` first sets it aside (its
connection is returned) before doing anything else. -/
theorem BeginTransaction_finalizes (s : Session)
    (cfgs : List (TransactionConfig → TransactionConfig)) (env : BeginEnv)
    (h1 : s.explicitTx = none) (tx : TxWrapper) (h2 : s.autocommitTx = some tx) :
    ∃ rest, (BeginTransaction s cfgs env).events = Event.returnConn :: rest := by
  have hs : ¬ s.explicitTx.isSome = true := by rw [h1]; simp
  unfold BeginTransaction
  rw [if_neg hs]
  rcases hgc : getConnection (autocommitDone s).1 (autocommitDone s).1.defaultMode env.connEnv
    with ⟨s₂, evs₁, res⟩
  cases hf : env.filtersResult with
  | some e => simp only [autocommitDone, h2, hf]; exact ⟨_, rfl⟩
  | none =>
    cases hvv : validateTransactionConfig (applyConfigurers cfgs) with
    | some e => simp only [autocommitDone, h2, hf, hvv]; exact ⟨_, rfl⟩
    | none =>
      cases res with
      | error e =>
        simp only [autocommitDone, h2, hf, hvv] at hgc ⊢
        simp only [hgc]
        exact ⟨_, rfl⟩
      | ok conn =>
        simp only [autocommitDone, h2, hf, hvv] at hgc ⊢
        cases hbm : transactionBookmarks s₂ env.mgrBookmarks with
        | error e => simp only [hgc, hbm]; exact ⟨_, rfl⟩
        | ok bms =>
          cases hbg : env.txBeginResult with
          | error e => simp only [hgc, hbm, hbg]; exact ⟨_, rfl⟩
          | ok th => simp only [hgc, hbm, hbg]; exact ⟨_, rfl⟩

/-- Finalization signature for `Run`. -/
theorem Run_finalizes (s : Session)
    (cfgs : List (TransactionConfig → TransactionConfig)) (env : RunEnv)
    (h1 : s.explicitTx = none) (tx : TxWrapper) (h2 : s.autocommitTx = some tx) :
    ∃ rest, (Run s cfgs env).events = Event.returnConn :: rest := by
  have hs : ¬ s.explicitTx.isSome = true := by rw [h1]; simp
  unfold Run
  rw [if_neg hs]
  rcases hgc : getConnection (autocommitDone s).1 (autocommitDone s).1.defaultMode env.connEnv
    with ⟨s₂, evs₁, res⟩
  cases hf : env.filtersResult with
  | some e => simp only [autocommitDone, h2, hf]; exact ⟨_, rfl⟩
  | none =>
    cases hvv : validateTransactionConfig (applyConfigurers cfgs) with
    | some e => simp only [autocommitDone, h2, hf, hvv]; exact ⟨_, rfl⟩
    | none =>
      cases res with
      | error e =>
        simp only [autocommitDone, h2, hf, hvv] at hgc ⊢
        simp only [hgc]
        exact ⟨_, rfl⟩
      | ok conn =>
        simp only [autocommitDone, h2, hf, hvv] at hgc ⊢
        cases hbm : transactionBookmarks s₂ env.mgrBookmarks with
        | error e => simp only [hgc, hbm]; exact ⟨_, rfl⟩
        | ok bms =>
          cases hrr : env.runResult with
          | error e => simp only [hgc, hbm, hrr]; exact ⟨_, rfl⟩
          | ok th => simp only [hgc, hbm, hrr]; exact ⟨_, rfl⟩

/-- Finalization signature for `runRetriable`. -/
theorem runRetriable_finalizes (s : Session) (mode : AccessMode)
    (cfgs : List (TransactionConfig → TransactionConfig)) (renv : RetryEnv)
    (h1 : s.explicitTx = none) (tx : TxWrapper) (h2 : s.autocommitTx = some tx) :
    ∃ rest, (runRetriable s mode cfgs renv).events = Event.returnConn :: rest := by
  have hs : ¬ s.explicitTx.isSome = true := by rw [h1]; simp
  unfold runRetriable
  rw [if_neg hs]
  rcases hlp : retryLoop mode (autocommitDone s).1
      (initialRetryState (autocommitDone s).1 mode renv.startTime) renv.script
    with ⟨ls, lst, levs, lval⟩
  cases hf : renv.filtersResult with
  | some e => simp only [autocommitDone, h2, hf]; exact ⟨_, rfl⟩
  | none =>
    cases hvv : validateTransactionConfig (applyConfigurers cfgs) with
    | some e => simp only [autocommitDone, h2, hf, hvv]; exact ⟨_, rfl⟩
    | none =>
      cases lval with
      | some x =>
        simp only [autocommitDone, h2, hf, hvv] at hlp ⊢
        simp only [hlp]
        exact ⟨_, rfl⟩
      | none =>
        simp only [autocommitDone, h2, hf, hvv] at hlp ⊢
        by_cases hretry : lst.lastErrWasRetryable
        · simp only [hlp, hretry]
          exact ⟨_, rfl⟩
        · cases hle : lst.lastErr with
          | some le =>
            simp only [hlp, hretry, hle]
            exact ⟨_, rfl⟩
          | none =>
            simp only [hlp, hretry, hle]
            exact ⟨_, rfl⟩

/-- C1: a session never holds an explicit and an autocommit transaction at
the same time: the at-most-one invariant is preserved by every sequence of
session operations; `BeginTransaction`, `ExecuteRead`/`ExecuteWrite` (via
`runRetriable`) and `Run` each fail with a usage error while an explicit
transaction is open; and when the guard passes each of them first finalizes a
pending autocommit transaction — returning its connection — before installing
anything new. -/
theorem c1_at_most_one_transaction (s : Session) (hinv : sessionInv s) :
    (∀ ops : List SessionOp, sessionInv (applyOps s ops)) ∧
    (∀ tx, s.explicitTx = some tx →
      (∀ cfgs benv, (BeginTransaction s cfgs benv).result =
        .error (.base (.usageError "Session already has a pending transaction"))) ∧
      (∀ mode cfgs renv, (runRetriable s mode cfgs renv).error =
        some (.base (.usageError "Session already has a pending transaction"))) ∧
      (∀ cfgs runenv, (Run s cfgs runenv).result =
        .error (.base (.usageError
          "Trying to run auto-commit transaction while in explicit transaction")))) ∧
    (s.explicitTx = none → ∀ tx, s.autocommitTx = some tx →
      (∀ cfgs benv, ∃ rest,
        (BeginTransaction s cfgs benv).events = Event.returnConn :: rest) ∧
      (∀ mode cfgs renv, ∃ rest,
        (runRetriable s mode cfgs renv).events = Event.returnConn :: rest) ∧
      (∀ cfgs runenv, ∃ rest,
        (Run s cfgs runenv).events = Event.returnConn :: rest)) := by
  refine ⟨?_, ?_, ?_⟩
  · intro ops
    induction ops generalizing s with
    | nil => exact hinv
    | cons op rest ih =>
      show sessionInv (applyOps (applyOp s op) rest)
      exact ih (applyOp s op) (applyOp_inv s op hinv)
  · intro tx htx
    have hs : s.explicitTx.isSome = true := by rw [htx]; rfl
    refine ⟨?_, ?_, ?_⟩
    · intro cfgs benv
      unfold BeginTransaction
      rw [if_pos hs]
    · intro mode cfgs renv
      unfold runRetriable
      rw [if_pos hs]
    · intro cfgs runenv
      unfold Run
      rw [if_pos hs]
  · intro h1 tx h2
    exact ⟨fun cfgs benv => BeginTransaction_finalizes s cfgs benv h1 tx h2,
      fun mode cfgs renv => runRetriable_finalizes s mode cfgs renv h1 tx h2,
      fun cfgs runenv => Run_finalizes s cfgs runenv h1 tx h2⟩

/-- One attempt of the retry loop never logs at session level. -/
theorem executeTransactionFunction_no_logError (s : Session) (mode : AccessMode)
    (st : RetryState) (env : AttemptEnv) (de : DriverError) :
    Event.logError de ∉ (executeTransactionFunction s mode st env).2.2.1 := by
  have hge := getConnection_events s mode env.connEnv
  rcases hgc : getConnection s mode env.connEnv with ⟨s₁, evs, res⟩
  rw [hgc] at hge
  simp only at hge
  unfold executeTransactionFunction
  cases res with
  | error e =>
    simp only [hgc]
    intro hmem
    rcases List.mem_append.mp hmem with h1 | h1
    · have := hge _ h1; simp at this
    · have := OnFailure_events _ _ _ _ _ h1; simp at this
  | ok conn =>
    cases hbm : transactionBookmarks s₁ env.mgrBookmarks with
    | error e =>
      simp only [hgc, hbm]
      intro hmem
      rcases List.mem_append.mp hmem with h1 | h1
      · rcases List.mem_append.mp h1 with h2 | h2
        · have := hge _ h2; simp at this
        · have := OnFailure_events _ _ _ _ _ h2; simp at this
      · simp at h1
    | ok bms =>
      cases hbg : env.txBeginResult with
      | error e =>
        simp only [hgc, hbm, hbg]
        intro hmem
        rcases List.mem_append.mp hmem with h1 | h1
        · rcases List.mem_append.mp h1 with h2 | h2
          · rcases List.mem_append.mp h2 with h3 | h3
            · have := hge _ h3; simp at this
            · simp at h3
          · have := OnFailure_events _ _ _ _ _ h2; simp at this
        · simp at h1
      | ok th =>
        cases hw : env.workResult with
        | error e =>
          simp only [hgc, hbm, hbg, hw]
          intro hmem
          rcases List.mem_append.mp hmem with h1 | h1
          · rcases List.mem_append.mp h1 with h2 | h2
            · rcases List.mem_append.mp h2 with h3 | h3
              · have := hge _ h3; simp at this
              · simp at h3
            · have := OnFailure_events _ _ _ _ _ h2; simp at this
          · simp at h1
        | ok x =>
          cases hc : env.commitResult with
          | some e =>
            simp only [hgc, hbm, hbg, hw, hc]
            intro hmem
            rcases List.mem_append.mp hmem with h1 | h1
            · rcases List.mem_append.mp h1 with h2 | h2
              · rcases List.mem_append.mp h2 with h3 | h3
                · have := hge _ h3; simp at this
                · simp at h3
              · have := OnFailure_events _ _ _ _ _ h2; simp at this
            · simp at h1
          | none =>
            have hrb := retrieveBookmarks_events s₁ conn bms env.notifyResult
            simp only [hgc, hbm, hbg, hw, hc]
            intro hmem
            cases hno : (retrieveBookmarks s₁ conn bms env.notifyResult).2.2 with
            | some e' =>
              simp only [hno] at hmem
              rcases List.mem_append.mp hmem with h1 | h1
              · rcases List.mem_append.mp h1 with h2 | h2
                · rcases List.mem_append.mp h2 with h3 | h3
                  · rcases List.mem_append.mp h3 with h4 | h4
                    · have := hge _ h4; simp at this
                    · simp at h4
                  · have := hrb _ h3; simp at this
                · simp at h2
              · simp at h1
            | none =>
              simp only [hno] at hmem
              rcases List.mem_append.mp hmem with h1 | h1
              · rcases List.mem_append.mp h1 with h2 | h2
                · rcases List.mem_append.mp h2 with h3 | h3
                  · rcases List.mem_append.mp h3 with h4 | h4
                    · have := hge _ h4; simp at this
                    · simp at h4
                  · have := hrb _ h3; simp at this
                · simp at h2
              · simp at h1

/-- The retry loop never logs at session level. -/
theorem retryLoop_no_logError (mode : AccessMode) (script : List AttemptEnv)
    (de : DriverError) :
    ∀ s st, Event.logError de ∉ (retryLoop mode s st script).2.2.1 := by
  induction script with
  | nil =>
    intro s st hmem
    simp [retryLoop] at hmem
  | cons env rest ih =>
    intro s st
    unfold retryLoop
    by_cases hcont : st.Continue
    · rw [if_pos hcont]
      have hne := executeTransactionFunction_no_logError s mode st env de
      rcases hef : executeTransactionFunction s mode st env with ⟨s₁, st₁, evs, tga, v⟩
      rw [hef] at hne
      simp only at hne
      cases tga with
      | true =>
        simp only [hef]
        intro hmem
        rcases List.mem_append.mp hmem with h1 | h1
        · exact hne h1
        · exact ih s₁ st₁ h1
      | false =>
        simp only [hef]
        exact hne
    · rw [if_neg hcont]
      intro hmem
      simp at hmem

/-- Every attempt that reports `tryAgain` records exactly one failure,
appended to the ordered history, and makes it the last error. -/
theorem executeTransactionFunction_records (s : Session) (mode : AccessMode)
    (st : RetryState) (env : AttemptEnv)
    (h : (executeTransactionFunction s mode st env).2.2.2.1 = true) :
    ∃ e, (executeTransactionFunction s mode st env).2.1.errs = st.errs ++ [e] ∧
      (executeTransactionFunction s mode st env).2.1.lastErr = some e := by
  rcases hgc : getConnection s mode env.connEnv with ⟨s₁, evs, res⟩
  unfold executeTransactionFunction at h ⊢
  cases res with
  | error e =>
    simp only [hgc] at h ⊢
    exact ⟨e, rfl, rfl⟩
  | ok conn =>
    cases hbm : transactionBookmarks s₁ env.mgrBookmarks with
    | error e =>
      simp only [hgc, hbm] at h ⊢
      exact ⟨e, rfl, rfl⟩
    | ok bms =>
      cases hbg : env.txBeginResult with
      | error e =>
        simp only [hgc, hbm, hbg] at h ⊢
        exact ⟨e, rfl, rfl⟩
      | ok th =>
        cases hw : env.workResult with
        | error e =>
          simp only [hgc, hbm, hbg, hw] at h ⊢
          exact ⟨e, rfl, rfl⟩
        | ok x =>
          cases hc : env.commitResult with
          | some e =>
            simp only [hgc, hbm, hbg, hw, hc] at h ⊢
            exact ⟨e, rfl, rfl⟩
          | none =>
            simp only [hgc, hbm, hbg, hw, hc] at h
            exact absurd h (by decide)

/-- The events of `autocommitDone` are exactly the connection's return. -/
theorem autocommitDone_no_logError (s : Session) (de : DriverError) :
    Event.logError de ∉ (autocommitDone s).2 := by
  cases h : s.autocommitTx <;> simp [autocommitDone, h]

/-- C2: when the retry loop of `runRetriable` stops without success, the
result is decided by the retryability of the last recorded failure: on budget
exhaustion after a retryable failure, a synthetic retry-limit error carrying
the complete ordered failure history is produced and logged; otherwise the
final error is surfaced as-is after wrapping, logged exactly when it is a
usage or connectivity error; every session-level log in the trace is a
usage, connectivity or retry-limit error; and every failed attempt appends
exactly its failure to the ordered history. -/
theorem c2_retry_termination (s : Session) (mode : AccessMode)
    (cfgs : List (TransactionConfig → TransactionConfig)) (renv : RetryEnv)
    (hguard : s.explicitTx = none) (hf : renv.filtersResult = none)
    (hv : validateTransactionConfig (applyConfigurers cfgs) = none)
    (hnone : (runRetriable s mode cfgs renv).value = none)
    (hstop : (runRetriable s mode cfgs renv).state.Continue = false) :
    ((runRetriable s mode cfgs renv).state.lastErrWasRetryable = true →
      (runRetriable s mode cfgs renv).error =
        some (.transactionExecutionLimit
          (runRetriable s mode cfgs renv).state.errs
          (runRetriable s mode cfgs renv).state.causes) ∧
      Event.logError (.transactionExecutionLimit
          (runRetriable s mode cfgs renv).state.errs
          (runRetriable s mode cfgs renv).state.causes) ∈
        (runRetriable s mode cfgs renv).events ∧
      (runRetriable s mode cfgs renv).state.maxRetryTime ≤
        (runRetriable s mode cfgs renv).state.now -
          (runRetriable s mode cfgs renv).state.start) ∧
    ((runRetriable s mode cfgs renv).state.lastErrWasRetryable = false →
      (runRetriable s mode cfgs renv).error =
        wrapErrorOpt (runRetriable s mode cfgs renv).state.lastErr ∧
      (∀ e, (runRetriable s mode cfgs renv).state.lastErr = some e →
        ((wrapError e).isUsage || (wrapError e).isConnectivity) = true →
        Event.logError (wrapError e) ∈ (runRetriable s mode cfgs renv).events)) ∧
    (∀ de, Event.logError de ∈ (runRetriable s mode cfgs renv).events →
      de.isUsage = true ∨ de.isConnectivity = true ∨ de.isLimit = true) ∧
    (∀ s₁ st₁ env₁, (executeTransactionFunction s₁ mode st₁ env₁).2.2.2.1 = true →
      ∃ e, (executeTransactionFunction s₁ mode st₁ env₁).2.1.errs = st₁.errs ++ [e] ∧
        (executeTransactionFunction s₁ mode st₁ env₁).2.1.lastErr = some e) := by
  have hs : ¬ s.explicitTx.isSome = true := by rw [hguard]; simp
  have hll := retryLoop_no_logError mode renv.script
  have hal := autocommitDone_no_logError s
  unfold runRetriable at hnone hstop ⊢
  rw [if_neg hs] at hnone hstop ⊢
  rcases hlp : retryLoop mode (autocommitDone s).1
      (initialRetryState (autocommitDone s).1 mode renv.startTime) renv.script
    with ⟨ls, lst, levs, lval⟩
  have hll' := fun de => hll de (autocommitDone s).1
    (initialRetryState (autocommitDone s).1 mode renv.startTime)
  rw [hlp] at hll'
  simp only at hll'
  simp only [hf, hv, hlp] at hnone hstop ⊢
  cases lval with
  | some x => simp at hnone
  | none =>
    simp only at hnone hstop ⊢
    by_cases hretry : lst.lastErrWasRetryable = true
    · rw [if_pos hretry] at hstop ⊢
      replace hstop : RetryState.Continue lst = false := hstop
      refine ⟨?_, ?_, ?_, ?_⟩
      · intro _
        refine ⟨rfl, ?_, ?_⟩
        · simp
        · unfold RetryState.Continue at hstop
          rw [hretry] at hstop
          simp at hstop
          show lst.maxRetryTime ≤ lst.now - lst.start
          omega
      · intro hfalse
        replace hfalse : lst.lastErrWasRetryable = false := hfalse
        rw [hretry] at hfalse
        exact absurd hfalse (by decide)
      · intro de hmem
        replace hmem : Event.logError de ∈ (autocommitDone s).2 ++ levs ++
          [Event.logError (DriverError.transactionExecutionLimit lst.errs lst.causes)] := hmem
        rcases List.mem_append.mp hmem with h1 | h1
        · rcases List.mem_append.mp h1 with h2 | h2
          · exact absurd h2 (hal de)
          · exact absurd h2 (hll' de)
        · simp at h1
          rw [h1]
          exact Or.inr (Or.inr rfl)
      · intro s₁ st₁ env₁ h₁
        exact executeTransactionFunction_records s₁ mode st₁ env₁ h₁
    · rw [if_neg hretry] at hstop ⊢
      have hretry' : lst.lastErrWasRetryable = false := by
        cases hx : lst.lastErrWasRetryable
        · rfl
        · exact absurd hx hretry
      cases hle : lst.lastErr with
      | none =>
        simp only [hle] at hstop ⊢
        refine ⟨?_, ?_, ?_, ?_⟩
        · intro hfalse
          replace hfalse : lst.lastErrWasRetryable = true := hfalse
          exact absurd hfalse hretry
        · intro _
          refine ⟨?_, ?_⟩
          · rfl
          · intro e he
            exact absurd he (by simp)
        · intro de hmem
          replace hmem : Event.logError de ∈ (autocommitDone s).2 ++ levs := hmem
          rcases List.mem_append.mp hmem with h1 | h1
          · exact absurd h1 (hal de)
          · exact absurd h1 (hll' de)
        · intro s₁ st₁ env₁ h₁
          exact executeTransactionFunction_records s₁ mode st₁ env₁ h₁
      | some le =>
        simp only [hle] at hstop ⊢
        refine ⟨?_, ?_, ?_, ?_⟩
        · intro hfalse
          replace hfalse : lst.lastErrWasRetryable = true := hfalse
          exact absurd hfalse hretry
        · intro _
          refine ⟨?_, ?_⟩
          · rfl
          · intro e he hcls
            replace he : (some le : Option BaseError) = some e := he
            injection he with he
            subst he
            rw [if_pos hcls]
            simp
        · intro de hmem
          by_cases hcls : ((wrapError le).isUsage || (wrapError le).isConnectivity) = true
          · rw [if_pos hcls] at hmem
            replace hmem : Event.logError de ∈ (autocommitDone s).2 ++ levs ++
              [Event.logError (wrapError le)] := hmem
            rcases List.mem_append.mp hmem with h1 | h1
            · rcases List.mem_append.mp h1 with h2 | h2
              · exact absurd h2 (hal de)
              · exact absurd h2 (hll' de)
            · simp at h1
              rw [h1]
              rcases Bool.or_eq_true_iff.mp hcls with hu | hu
              · exact Or.inl hu
              · exact Or.inr (Or.inl hu)
          · rw [if_neg hcls] at hmem
            replace hmem : Event.logError de ∈ (autocommitDone s).2 ++ levs ++
              ([] : List Event) := hmem
            rw [List.append_nil] at hmem
            rcases List.mem_append.mp hmem with h1 | h1
            · exact absurd h1 (hal de)
            · exact absurd h1 (hll' de)
        · intro s₁ st₁ env₁ h₁
          exact executeTransactionFunction_records s₁ mode st₁ env₁ h₁

/-- C2 witness: a work function failing with a retryable error on every
attempt exhausts the ten-unit budget and yields the retry-limit error. -/
theorem c2_retry_termination_witness :
    (runRetriable sampleSession .write [] exhaustingRetryEnv).error =
      some (.transactionExecutionLimit
        (runRetriable sampleSession .write [] exhaustingRetryEnv).state.errs
        (runRetriable sampleSession .write [] exhaustingRetryEnv).state.causes) :=
  ((c2_retry_termination sampleSession .write [] exhaustingRetryEnv rfl rfl rfl
    (by decide) (by decide)).1 (by decide)).1

/-- C1 witness. -/
theorem c1_at_most_one_transaction_witness :
    sessionInv sampleSession ∧
    sessionInv (applyOps sampleSession
      [.opRun [] sampleRunEnv, .opBegin [] sampleBeginEnv, .opClose sampleCloseEnv]) :=
  ⟨Or.inl rfl,
   (c1_at_most_one_transaction sampleSession (Or.inl rfl)).1
     [.opRun [] sampleRunEnv, .opBegin [] sampleBeginEnv, .opClose sampleCloseEnv]⟩

end Neo4j
